import Mathlib

/-!
# Verification of the `torn_scripts` snapshot-diff engine

Shallow embedding of `xantaken_diff.py` (the snapshot diff engine) and of the
relevant fragment of `xans.py` (the fetcher's request-header construction),
together with theorems settling the frozen claims about the program.

Conventions of the embedding:
* A calendar date is represented by its (proleptic Gregorian) day number, an
  `Int`, so that Python `date` subtraction `(d2 - d1).days` becomes integer
  subtraction and `date` comparison becomes integer comparison.
* A pandas cell is an `Option String` (`none` = NaN / missing value); a
  numeric cell after `pd.to_numeric(..., errors="coerce")` is an `Option ℚ`.
* A DataFrame as returned by `pd.read_csv` on a snapshot file is a `RawDF`:
  per-column presence flags plus a list of rows over the six columns the
  snapshot schema can carry.
* Fallible Python code (raising) is embedded with `Except String`.
-/

namespace TornScripts

attribute [local semireducible] Rat.sub Rat.add Rat.mul Rat.inv

/-! ## Digit and date parsing -/

/-- Numeric value of a list of decimal digit characters (most significant first). -/
def digitsToNat (cs : List Char) : Nat :=
  cs.foldl (fun n c => 10 * n + (c.toNat - 48)) 0

/-- Leap-year test of the Gregorian calendar, as used by Python's `datetime.date`. -/
def isLeapYear (y : Int) : Bool :=
  (y % 4 == 0 && y % 100 != 0) || (y % 400 == 0)

/-- Number of days in month `m` of year `y` (Gregorian). -/
def daysInMonth (y m : Int) : Int :=
  if m = 2 then (if isLeapYear y then 29 else 28)
  else if m = 4 ∨ m = 6 ∨ m = 9 ∨ m = 11 then 30
  else 31

/-- Day number of the Gregorian date `y-m-d` (days since 1970-01-01, the
standard civil-from-days algorithm).  Only monotonicity in the calendar order
matters to the claims; the constant offset is irrelevant. -/
def daysFromCivil (y m d : Int) : Int :=
  let y' := if m ≤ 2 then y - 1 else y
  let era := (if 0 ≤ y' then y' else y' - 399) / 400
  let yoe := y' - era * 400
  let mp := (m + 9) % 12
  let doy := (153 * mp + 2) / 5 + d - 1
  let doe := yoe * 365 + yoe / 4 - yoe / 100 + doy
  era * 146097 + doe - 719468

/-- Embedding of `datetime.date.fromisoformat` restricted to the dashed
`YYYY-MM-DD` shape (the only shape the regex `(\d{4}-\d{2}-\d{2})` can hand
it): returns `none` unless all eight digit positions are digits and the
(year, month, day) triple is a valid proleptic Gregorian date with year ≥ 1
(Python's `MINYEAR`). -/
def parseIsoDate (s : String) : Option Int :=
  match s.data with
  | [y1, y2, y3, y4, '-', m1, m2, '-', d1, d2] =>
    if ([y1, y2, y3, y4, m1, m2, d1, d2].all (·.isDigit)) then
      let y : Int := (digitsToNat [y1, y2, y3, y4] : Nat)
      let m : Int := (digitsToNat [m1, m2] : Nat)
      let d : Int := (digitsToNat [d1, d2] : Nat)
      if 1 ≤ y ∧ 1 ≤ m ∧ m ≤ 12 ∧ 1 ≤ d ∧ d ≤ daysInMonth y m then
        some (daysFromCivil y m d)
      else none
    else none
  | _ => none

/-- Embedding of `pd.to_datetime(value).date()` applied to an `export_date`
cell.  Parsing is modelled for ISO `YYYY-MM-DD` strings, the format the
fetcher writes into `export_date`; any other string is treated as a parse
failure (which the caller turns into a fall-through, so the claims do not
depend on the exact accepted language). -/
def pdToDate (s : String) : Option Int :=
  parseIsoDate s

/-- Does `\d{4}-\d{2}-\d{2}` match at the head of the character list?
Returns the ten matched characters. -/
def matchIsoAt : List Char → Option String
  | y1 :: y2 :: y3 :: y4 :: '-' :: m1 :: m2 :: '-' :: d1 :: d2 :: _ =>
    if ([y1, y2, y3, y4, m1, m2, d1, d2].all (·.isDigit)) then
      some (String.mk [y1, y2, y3, y4, '-', m1, m2, '-', d1, d2])
    else none
  | _ => none

/-- Embedding of `DATE_RE.search(name)` for `DATE_RE = (\d{4}-\d{2}-\d{2})`:
leftmost match of the fixed-length pattern. -/
def searchIsoPattern : List Char → Option String
  | [] => none
  | c :: cs =>
    match matchIsoAt (c :: cs) with
    | some m => some m
    | none => searchIsoPattern cs

/-- The filename fallback of `_parse_date_from_df_or_filename` (lines 52-59):
search the name for the first `YYYY-MM-DD` pattern and try
`date.fromisoformat` on it; any failure yields `none`. -/
def filenameDate (name : String) : Option Int :=
  match searchIsoPattern name.data with
  | some s =>
    match parseIsoDate s with
    | some d => some d
    | none => none
  | none => none

/-! ## Numeric cell parsing -/

/-- Unsigned decimal literal: `digits`, `digits.digits`, `digits.` or
`.digits` (at least one digit overall). -/
def parseUnsignedRat (cs : List Char) : Option ℚ :=
  let intPart := cs.takeWhile (·.isDigit)
  let rest := cs.dropWhile (·.isDigit)
  match rest with
  | [] => if intPart.isEmpty then none else some ((digitsToNat intPart : Nat) : ℚ)
  | '.' :: frac =>
    if frac.all (·.isDigit) && !(intPart.isEmpty && frac.isEmpty) then
      some (((digitsToNat intPart : Nat) : ℚ)
        + ((digitsToNat frac : Nat) : ℚ) / ((10 : ℚ) ^ frac.length))
    else none
  | _ => none

/-- Surrounding whitespace removal on the character list of a cell. -/
def trimList (cs : List Char) : List Char :=
  ((cs.dropWhile (·.isWhitespace)).reverse.dropWhile (·.isWhitespace)).reverse

/-- Embedding of the value parser behind `pd.to_numeric(..., errors="coerce")`
on a single cell string: optionally signed decimal literal, `none` on
anything unparsable.  (Exponent notation is not exercised by the snapshot
data and is modelled as unparsable.) -/
def parseRat (s : String) : Option ℚ :=
  match trimList s.data with
  | [] => none
  | '-' :: rest => (parseUnsignedRat rest).map (fun q => -q)
  | '+' :: rest => parseUnsignedRat rest
  | cs => parseUnsignedRat cs

/-- `pd.to_numeric(cell, errors="coerce")`: missing stays missing, an
unparsable string becomes missing, a numeric literal becomes its value. -/
def toNumeric (c : Option String) : Option ℚ :=
  c.bind parseRat

/-- `df["user_id"].astype(str)` on a cell: a missing value renders as the
string `"nan"`; a cell that `read_csv` inferred as an integer (an unsigned
decimal literal, the form Torn ids take) renders as the canonical decimal
form of that integer; any other cell keeps its text. -/
def userIdStr : Option String → String
  | none => "nan"
  | some s =>
    if s.data ≠ [] ∧ s.data.all (·.isDigit) then toString (digitsToNat s.data)
    else s

/-! ## Data model -/

/-- One row of a snapshot CSV as parsed by `pd.read_csv`: one cell (possibly
missing) per column of the snapshot schema.  A cell of a column the file does
not carry is irrelevant (the presence flags of `RawDF` gate every access). -/
structure RawRow where
  user_id : Option String
  name : Option String
  position : Option String
  level : Option String
  xantaken : Option String
  export_date : Option String
deriving Repr, DecidableEq

/-- A loaded snapshot DataFrame: which of the six schema columns are present,
and the rows. -/
structure RawDF where
  hasUserId : Bool
  hasName : Bool
  hasPosition : Bool
  hasLevel : Bool
  hasXantaken : Bool
  hasExportDate : Bool
  rows : List RawRow
deriving Repr, DecidableEq

/-- The column names of a `RawDF`, in the snapshot schema order. -/
def colNames (df : RawDF) : List String :=
  (if df.hasUserId then ["user_id"] else [])
    ++ (if df.hasName then ["name"] else [])
    ++ (if df.hasPosition then ["position"] else [])
    ++ (if df.hasLevel then ["level"] else [])
    ++ (if df.hasXantaken then ["xantaken"] else [])
    ++ (if df.hasExportDate then ["export_date"] else [])

/-- `required - set(df.columns)` for `required = {"user_id", "xantaken"}`,
listed in the sorted order used by the error message
(`"user_id" < "xantaken"`). -/
def missingCols (df : RawDF) : List String :=
  (if df.hasUserId then [] else ["user_id"])
    ++ (if df.hasXantaken then [] else ["xantaken"])

/-- Embedding of `_parse_date_from_df_or_filename` (lines 41-59): first
non-null `export_date` value if the column exists, parsed as a date; on a
missing column, no usable value, or a parse failure, fall through to the
filename pattern; ultimate failure is `none`. -/
def parseDateFromDfOrFilename (df : RawDF) (name : String) : Option Int :=
  if df.hasExportDate then
    match (df.rows.filterMap (·.export_date)).head? with
    | some v =>
      match pdToDate v with
      | some d => some d
      | none => filenameDate name
    | none => filenameDate name
  else filenameDate name

/-- One row of a snapshot after `_load_snapshot` normalization:
`user_id` as a string, `xantaken` coerced to a number or null, metadata
cells carried along (null when the column is absent from the file). -/
structure SnapRow where
  user_id : String
  xantaken : Option ℚ
  name : Option String
  position : Option String
  level : Option String
deriving Repr, DecidableEq

/-- A normalized snapshot: rows plus which optional columns the file had. -/
structure Snapshot where
  hasName : Bool
  hasPosition : Bool
  hasLevel : Bool
  rows : List SnapRow
deriving Repr, DecidableEq

/-- Embedding of `_load_snapshot` (lines 62-78): a missing mandatory column
raises `ValueError` with a message naming the file, the sorted missing
columns and the found columns; otherwise `user_id` is rendered to string and
`xantaken` coerced to numeric with unparsable values becoming null. -/
def loadSnapshot (df : RawDF) (path : String) : Except String Snapshot :=
  let missing := missingCols df
  if missing.isEmpty then
    .ok
      { hasName := df.hasName
        hasPosition := df.hasPosition
        hasLevel := df.hasLevel
        rows := df.rows.map fun r =>
          { user_id := userIdStr r.user_id
            xantaken := toNumeric r.xantaken
            name := if df.hasName then r.name else none
            position := if df.hasPosition then r.position else none
            level := if df.hasLevel then r.level else none } }
  else
    .error (path ++ " is missing required column(s): "
      ++ String.intercalate ", " missing
      ++ ". Found columns: " ++ String.intercalate ", " (colNames df))

/-! ## Date summary -/

/-- Lines 92-97 of `build_report`: when both reference dates resolve, `start`
is the earlier, `end` the later, `days` the absolute difference; otherwise
the dates are passed through in argument order and `days` is null.
Returns `(start_date, end_date, days_between)`. -/
def dateSummary (da db : Option Int) : Option Int × Option Int × Option Int :=
  match da, db with
  | some x, some y =>
    (if x ≤ y then (some x, some y, some (y - x).natAbs)
     else (some y, some x, some (y - x).natAbs))
  | _, _ => (da, db, none)

/-! ## Outer join -/

/-- One row of the merged frame (`a.merge(b, on="user_id", how="outer")`):
the key plus both sides' value and metadata cells, null on the side the
member is absent from. -/
structure MergedRow where
  user_id : String
  xantaken_a : Option ℚ
  xantaken_b : Option ℚ
  name_a : Option String
  name_b : Option String
  position_a : Option String
  position_b : Option String
  level_a : Option String
  level_b : Option String
deriving Repr, DecidableEq

/-- Build a merged row for key `k` from an optional left row and an optional
right row. -/
def mergedOfOpt (k : String) (oa ob : Option SnapRow) : MergedRow :=
  { user_id := k
    xantaken_a := oa.bind (·.xantaken)
    xantaken_b := ob.bind (·.xantaken)
    name_a := oa.bind (·.name)
    name_b := ob.bind (·.name)
    position_a := oa.bind (·.position)
    position_b := ob.bind (·.position)
    level_a := oa.bind (·.level)
    level_b := ob.bind (·.level) }

/-- The merged rows contributed by one key: all left matches paired with all
right matches, or the single-sided rows when one side has no match. -/
def rowsForKey (A B : List SnapRow) (k : String) : List MergedRow :=
  if (A.filter fun r => r.user_id == k).isEmpty then
    (B.filter fun r => r.user_id == k).map fun rb => mergedOfOpt k none (some rb)
  else if (B.filter fun r => r.user_id == k).isEmpty then
    (A.filter fun r => r.user_id == k).map fun ra => mergedOfOpt k (some ra) none
  else
    ((A.filter fun r => r.user_id == k).map fun ra =>
      (B.filter fun r => r.user_id == k).map fun rb =>
        mergedOfOpt k (some ra) (some rb)).flatten

/-- Strict code-point lexicographic comparison of character lists, matching
how Python compares the id strings. -/
def charListLt : List Char → List Char → Bool
  | [], [] => false
  | [], _ :: _ => true
  | _ :: _, [] => false
  | a :: as, b :: bs =>
    if a.toNat < b.toNat then true
    else if b.toNat < a.toNat then false
    else charListLt as bs

/-- Code-point lexicographic `≤` on strings. -/
def strLe (s t : String) : Prop :=
  charListLt t.data s.data = false

instance : DecidableRel strLe := fun s t =>
  inferInstanceAs (Decidable (charListLt t.data s.data = false))

/-- The join keys of the outer merge: the union of both key columns; pandas
sorts them lexicographically for `how="outer"`. -/
def mergeKeys (A B : List SnapRow) : List String :=
  ((A.map (·.user_id) ++ B.map (·.user_id)).dedup).insertionSort strLe

/-- Embedding of `a.merge(b, on="user_id", how="outer")` (line 111). -/
def mergeOuter (A B : List SnapRow) : List MergedRow :=
  ((mergeKeys A B).map (rowsForKey A B)).flatten

/-! ## Derived columns and status -/

/-- Row-wise `DataFrame.min(axis=1)` over the two value columns: pandas
skips missing values (`skipna=True` default), so the result is missing only
when both operands are. -/
def xantakenMinCol (a b : Option ℚ) : Option ℚ :=
  match a, b with
  | none, none => none
  | some x, none => some x
  | none, some y => some y
  | some x, some y => some (min x y)

/-- Row-wise `DataFrame.max(axis=1)`, skipping missing values. -/
def xantakenMaxCol (a b : Option ℚ) : Option ℚ :=
  match a, b with
  | none, none => none
  | some x, none => some x
  | none, some y => some y
  | some x, some y => some (max x y)

/-- `xantaken_b - xantaken_a` with pandas null propagation. -/
def diffCol (a b : Option ℚ) : Option ℚ :=
  match a, b with
  | some x, some y => some (y - x)
  | _, _ => none

/-- Lines 127-130: the rate column.  Null for every row when `days_between`
is null or zero; otherwise `(max - min) / days`, propagating nulls of
`min`/`max`. -/
def avgCol (days : Option Int) (mn mx : Option ℚ) : Option ℚ :=
  match days with
  | none => none
  | some d =>
    if d = 0 then none
    else
      match mn, mx with
      | some lo, some hi => some ((hi - lo) / (d : ℚ))
      | _, _ => none

/-- `avg < threshold` as pandas evaluates it on a possibly-NaN scalar:
a NaN comparison is false. -/
def nanLt (avg : Option ℚ) (t : ℚ) : Bool :=
  match avg with
  | some v => decide (v < t)
  | none => false

/-- `avg >= threshold` with NaN comparing false. -/
def nanGe (avg : Option ℚ) (t : ℚ) : Bool :=
  match avg with
  | some v => decide (t ≤ v)
  | none => false

/-- Embedding of the row classifier `_status` (lines 133-147), with its
first-match precedence. -/
def statusOf (a b avg : Option ℚ) : String :=
  if a.isNone && b.isNone then "Never Taken Xan!!!"
  else if a.isNone then "New Recruit"
  else if b.isNone then "Not in Faction and Time of Second Snapshot"
  else if nanLt avg 1 then "Fail"
  else if nanGe avg 2 then "Exceeds"
  else "Pass"

/-! ## Report rows -/

/-- One row of the final report after the column projection of lines
154-160: helper columns `xantaken_min`/`xantaken_max` are dropped, the
combined metadata columns are kept (fields are meaningful only when the
corresponding presence flag of `BuildOut` is set). -/
structure ReportRow where
  user_id : String
  name : Option String
  position : Option String
  level : Option String
  xantaken_a : Option ℚ
  xantaken_b : Option ℚ
  diff_xantaken : Option ℚ
  avg_xantaken_per_day : Option ℚ
  status : String
deriving Repr, DecidableEq

/-- Lines 113-149 applied to one merged row: metadata combined preferring
the second file (`combine_first`), derived columns, and status. -/
def toReportRow (days : Option Int) (m : MergedRow) : ReportRow :=
  let mn := xantakenMinCol m.xantaken_a m.xantaken_b
  let mx := xantakenMaxCol m.xantaken_a m.xantaken_b
  let avg := avgCol days mn mx
  { user_id := m.user_id
    name := m.name_b.orElse fun _ => m.name_a
    position := m.position_b.orElse fun _ => m.position_a
    level := m.level_b.orElse fun _ => m.level_a
    xantaken_a := m.xantaken_a
    xantaken_b := m.xantaken_b
    diff_xantaken := diffCol m.xantaken_a m.xantaken_b
    avg_xantaken_per_day := avg
    status := statusOf m.xantaken_a m.xantaken_b avg }

/-- The report rows before the final sort. -/
def preReport (sa sb : Snapshot) (days : Option Int) : List ReportRow :=
  (mergeOuter sa.rows sb.rows).map (toReportRow days)

/-! ## Final sort -/

/-- The sort key of a report row for
`sort_values(by=["position", "diff_xantaken", "user_id"],
ascending=[True, False, True], na_position="last")`: lexicographic on
(position ascending with null last, diff descending with null last,
user_id ascending). -/
def reportKey (r : ReportRow) :
    Lex ((Lex (Bool × String)) × (Lex ((Lex (Bool × ℚᵒᵈ)) × String))) :=
  toLex (toLex (r.position.isNone, r.position.getD ""),
    toLex (toLex (r.diff_xantaken.isNone, OrderDual.toDual (r.diff_xantaken.getD 0)),
      r.user_id))

/-- The row order realised by the final sort. -/
def reportOrder (r s : ReportRow) : Prop :=
  reportKey r ≤ reportKey s

instance : DecidableRel reportOrder := fun r s =>
  inferInstanceAs (Decidable (reportKey r ≤ reportKey s))

instance : IsTotal ReportRow reportOrder :=
  ⟨fun r s => le_total (reportKey r) (reportKey s)⟩

instance : IsTrans ReportRow reportOrder :=
  ⟨fun _ _ _ h h' => le_trans h h'⟩

/-- Embedding of the final `sort_values` call (lines 162-166) as the stable
sort by `reportOrder`; `np.lexsort`, which pandas uses for a multi-column
sort, is stable, and a stable sort by a total preorder is unique, so any
stable sorting algorithm is an exact model. -/
def sortReport (rows : List ReportRow) : List ReportRow :=
  rows.insertionSort reportOrder

/-! ## The full pipeline -/

/-- The result of `build_report`: the sorted report with its metadata-column
presence flags, and the date summary. -/
structure BuildOut where
  metaName : Bool
  metaPosition : Bool
  metaLevel : Bool
  report : List ReportRow
  start_date : Option Int
  end_date : Option Int
  days_between : Option Int
deriving Repr, DecidableEq

/-- Embedding of `build_report(path_a, path_b)` (lines 81-168), taking the
two parsed CSVs together with their file names.  The final
`sort_values(by=["position", ...])` raises `KeyError` when neither input
carried a `position` column, embedded as the error branch. -/
def buildReport (dfa : RawDF) (pa : String) (dfb : RawDF) (pb : String) :
    Except String BuildOut :=
  match loadSnapshot dfa pa with
  | .error e => .error e
  | .ok sa =>
    match loadSnapshot dfb pb with
    | .error e => .error e
    | .ok sb =>
      let s := dateSummary (parseDateFromDfOrFilename dfa pa) (parseDateFromDfOrFilename dfb pb)
      if dfa.hasPosition || dfb.hasPosition then
        .ok
          { metaName := dfa.hasName || dfb.hasName
            metaPosition := dfa.hasPosition || dfb.hasPosition
            metaLevel := dfa.hasLevel || dfb.hasLevel
            report := sortReport (preReport sa sb s.2.2)
            start_date := s.1
            end_date := s.2.1
            days_between := s.2.2 }
      else
        .error "KeyError: position"

/-! ## Fetcher fragment -/

/-- Embedding of the request headers built by `torn_get` in `xans.py`
(lines 40-44).  The function receives the caller's `api_key` parameter, but
the `Authorization` value is the literal of the source: an f-string with no
placeholder. -/
def tornGetHeaders (api_key : String) : List (String × String) :=
  [("Authorization", "ApiKey xOZ42wvjt01rhnl9"),
   ("Accept", "application/json"),
   ("User-Agent", "faction-xantaken-export/1.0")]

/-! ## Concrete instances used by witnesses and counterexamples -/

/-- A one-member snapshot: member `1` with 5 Xanax taken on 2024-01-01. -/
def exRowA : RawRow :=
  { user_id := some "1"
    name := some "Alice"
    position := some "Member"
    level := some "20"
    xantaken := some "5"
    export_date := some "2024-01-01" }

/-- Full-schema snapshot file holding only `exRowA`. -/
def exA : RawDF :=
  { hasUserId := true
    hasName := true
    hasPosition := true
    hasLevel := true
    hasXantaken := true
    hasExportDate := true
    rows := [exRowA] }

/-- Full-schema snapshot file with no rows (its date resolves from the
filename). -/
def exB : RawDF :=
  { exA with rows := [] }

/-- Member `1` again with 10 Xanax taken, exported 2024-01-04. -/
def exRowC : RawRow :=
  { exRowA with xantaken := some "10", export_date := some "2024-01-04" }

/-- Snapshot file holding `exRowC` (the chronologically later snapshot). -/
def exC : RawDF :=
  { exA with rows := [exRowC] }

/-- Member `1` with 3 Xanax taken, exported 2024-01-01. -/
def exRowD : RawRow :=
  { exRowA with xantaken := some "3" }

/-- Snapshot file holding `exRowD` (the chronologically earlier snapshot). -/
def exD : RawDF :=
  { exA with rows := [exRowD] }

/-- A snapshot file whose `xantaken` column is missing. -/
def exNoXan : RawDF :=
  { exA with hasXantaken := false }

/-- A snapshot file missing both mandatory columns. -/
def exNoMandatory : RawDF :=
  { exA with hasUserId := false, hasXantaken := false }

/-- A full-schema file whose one `xantaken` cell is the unparsable string
`"abc"`. -/
def exBadStat : RawDF :=
  { exA with rows := [{ exRowA with xantaken := some "abc" }] }

/-- A full-schema file without `position` (on either side it makes the final
sort raise). -/
def exNoPos : RawDF :=
  { exA with hasPosition := false }

/-- The successfully built output for an `Except` result, with a dummy
fallback used only on the error branch. -/
def okOut (x : Except String BuildOut) : BuildOut :=
  match x with
  | .ok o => o
  | .error _ => ⟨false, false, false, [], none, none, none⟩

/-- The successfully loaded snapshot of an `Except` result, with a dummy
fallback used only on the error branch. -/
def okSnap (x : Except String Snapshot) : Snapshot :=
  match x with
  | .ok s => s
  | .error _ => ⟨false, false, false, []⟩

/-- Strict comparison of two optional day numbers (false unless both are
present). -/
def dayLt (a b : Option Int) : Bool :=
  match a, b with
  | some x, some y => decide (x < y)
  | _, _ => false

/-- `sub` occurs as a contiguous substring of `hay`. -/
def containsStr (hay sub : String) : Prop :=
  ∃ p q, hay = p ++ sub ++ q

/-- The `xantaken` cell of the unique row of `s` whose id is `u`, if any. -/
def lookupXan (s : Snapshot) (u : String) : Option ℚ :=
  (s.rows.find? fun q => q.user_id == u).bind (·.xantaken)

/-! ## Helper lemmas about the pipeline -/

/-- Anatomy of a successful `buildReport` run. -/
theorem buildReport_ok {dfa : RawDF} {pa : String} {dfb : RawDF} {pb : String}
    {out : BuildOut} (h : buildReport dfa pa dfb pb = .ok out) :
    ∃ sa sb,
      loadSnapshot dfa pa = .ok sa ∧ loadSnapshot dfb pb = .ok sb ∧
        (dfa.hasPosition || dfb.hasPosition) = true ∧
        out.report = sortReport (preReport sa sb
          (dateSummary (parseDateFromDfOrFilename dfa pa)
            (parseDateFromDfOrFilename dfb pb)).2.2) ∧
        out.start_date = (dateSummary (parseDateFromDfOrFilename dfa pa)
          (parseDateFromDfOrFilename dfb pb)).1 ∧
        out.end_date = (dateSummary (parseDateFromDfOrFilename dfa pa)
          (parseDateFromDfOrFilename dfb pb)).2.1 ∧
        out.days_between = (dateSummary (parseDateFromDfOrFilename dfa pa)
          (parseDateFromDfOrFilename dfb pb)).2.2 := by
  unfold buildReport at h
  cases hla : loadSnapshot dfa pa with
  | error e => rw [hla] at h; cases h
  | ok sa =>
    rw [hla] at h
    cases hlb : loadSnapshot dfb pb with
    | error e => rw [hlb] at h; cases h
    | ok sb =>
      rw [hlb] at h
      by_cases hp : (dfa.hasPosition || dfb.hasPosition) = true
      · simp only [hp, if_true] at h
        injection h with h'
        exact ⟨sa, sb, rfl, rfl, hp, by rw [← h'], by rw [← h'], by rw [← h'], by rw [← h']⟩
      · simp only [hp, if_false] at h
        cases h

/-- `dateSummary` on two resolved dates. -/
theorem dateSummary_some (x y : Int) :
    dateSummary (some x) (some y) =
      (some (min x y), some (max x y), some ((x - y).natAbs : Int)) := by
  unfold dateSummary
  have hn : (y - x).natAbs = (x - y).natAbs := by omega
  by_cases h : x ≤ y
  · simp only [h, if_true]
    rw [min_eq_left h, max_eq_right h, hn]
  · simp only [h, if_false]
    rw [min_eq_right (le_of_not_le h), max_eq_left (le_of_not_le h), hn]

/-- `dateSummary` with an unresolved date passes the arguments through. -/
theorem dateSummary_none {da db : Option Int} (h : da = none ∨ db = none) :
    dateSummary da db = (da, db, none) := by
  cases da with
  | none => cases db <;> rfl
  | some x =>
    cases db with
    | none => rfl
    | some y => rcases h with h | h <;> cases h

/-- `dateSummary` is symmetric once both dates resolve. -/
theorem dateSummary_swap {da db : Option Int} (ha : da.isSome) (hb : db.isSome) :
    dateSummary da db = dateSummary db da := by
  cases da with
  | none => cases ha
  | some x =>
    cases db with
    | none => cases hb
    | some y =>
      have hn : (x - y).natAbs = (y - x).natAbs := by omega
      rw [dateSummary_some, dateSummary_some, min_comm, max_comm, hn]

/-- Under unique ids, filtering a snapshot by an id finds at most one row. -/
theorem filter_uid_eq_find (A : List SnapRow)
    (hA : (A.map (·.user_id)).Nodup) (k : String) :
    A.filter (fun r => r.user_id == k) =
      (A.find? fun r => r.user_id == k).elim [] (fun r => [r]) := by
  induction A with
  | nil => rfl
  | cons a as ih =>
    rw [List.map_cons, List.nodup_cons] at hA
    by_cases hk : (a.user_id == k) = true
    · rw [List.filter_cons, if_pos hk, List.find?_cons_of_pos as hk]
      have hnil : as.filter (fun r => r.user_id == k) = [] := by
        rw [List.filter_eq_nil_iff]
        intro r hr hrk
        exact hA.1 (by
          rw [List.mem_map]
          refine ⟨r, hr, ?_⟩
          have h1 : r.user_id = k := by simpa using hrk
          have h2 : a.user_id = k := by simpa using hk
          rw [h1, h2])
      rw [hnil]
      rfl
    · rw [List.filter_cons, if_neg hk, List.find?_cons_of_neg as hk]
      exact ih hA.2

/-- Under unique ids on both sides, the merged rows of one key are the single
pairing of the two looked-up rows (or nothing when the key matches neither
side; that case never arises for a key of the union). -/
theorem rowsForKey_eq_find (A B : List SnapRow)
    (hA : (A.map (·.user_id)).Nodup) (hB : (B.map (·.user_id)).Nodup)
    (k : String) :
    rowsForKey A B k =
      if (A.find? fun r => r.user_id == k) = none
          ∧ (B.find? fun r => r.user_id == k) = none then []
      else [mergedOfOpt k (A.find? fun r => r.user_id == k)
        (B.find? fun r => r.user_id == k)] := by
  unfold rowsForKey
  rw [filter_uid_eq_find A hA k, filter_uid_eq_find B hB k]
  cases hfa : A.find? fun r => r.user_id == k with
  | none =>
    cases hfb : B.find? fun r => r.user_id == k with
    | none => simp
    | some rb => simp
  | some ra =>
    cases hfb : B.find? fun r => r.user_id == k with
    | none => simp
    | some rb => simp

/-- Every merged row contributed by key `k` carries `k` as its id. -/
theorem mem_rowsForKey_uid {A B : List SnapRow} {k : String} {m : MergedRow}
    (hm : m ∈ rowsForKey A B k) : m.user_id = k := by
  unfold rowsForKey at hm
  split at hm
  · rw [List.mem_map] at hm
    obtain ⟨rb, _, rfl⟩ := hm
    rfl
  · split at hm
    · rw [List.mem_map] at hm
      obtain ⟨ra, _, rfl⟩ := hm
      rfl
    · rw [List.mem_flatten] at hm
      obtain ⟨l, hl, hml⟩ := hm
      rw [List.mem_map] at hl
      obtain ⟨ra, _, rfl⟩ := hl
      rw [List.mem_map] at hml
      obtain ⟨rb, _, rfl⟩ := hml
      rfl

/-- The keys of the outer merge are exactly the union of both id columns. -/
theorem mem_mergeKeys {A B : List SnapRow} {u : String} :
    u ∈ mergeKeys A B ↔
      (u ∈ A.map (·.user_id) ∨ u ∈ B.map (·.user_id)) := by
  unfold mergeKeys
  rw [List.mem_insertionSort, List.mem_dedup, List.mem_append]

/-- The keys of the outer merge are pairwise distinct. -/
theorem nodup_mergeKeys (A B : List SnapRow) : (mergeKeys A B).Nodup :=
  (List.perm_insertionSort _ _).symm.nodup (List.nodup_dedup _)

/-- A merged row remembers exactly the looked-up row of each side. -/
theorem mem_mergeOuter {A B : List SnapRow}
    (hA : (A.map (·.user_id)).Nodup) (hB : (B.map (·.user_id)).Nodup)
    {m : MergedRow} (hm : m ∈ mergeOuter A B) :
    m = mergedOfOpt m.user_id (A.find? fun r => r.user_id == m.user_id)
        (B.find? fun r => r.user_id == m.user_id) := by
  unfold mergeOuter at hm
  rw [List.mem_flatten] at hm
  obtain ⟨l, hl, hml⟩ := hm
  rw [List.mem_map] at hl
  obtain ⟨k, _, rfl⟩ := hl
  rw [rowsForKey_eq_find A B hA hB k] at hml
  split at hml
  · cases hml
  · rw [List.mem_singleton] at hml
    subst hml
    rfl

/-- Rows of a foreign key never count towards a key's multiplicity. -/
theorem countP_rowsForKey_ne (A B : List SnapRow) {k u : String} (hne : k ≠ u) :
    (rowsForKey A B k).countP (fun m => m.user_id == u) = 0 := by
  rw [List.countP_eq_zero]
  intro m hm hmu
  exact hne (by rw [← mem_rowsForKey_uid hm]; simpa using hmu)

/-- A key of the union contributes exactly one merged row when ids are
unique on both sides. -/
theorem countP_rowsForKey_self (A B : List SnapRow)
    (hA : (A.map (·.user_id)).Nodup) (hB : (B.map (·.user_id)).Nodup)
    (u : String) (hu : u ∈ A.map (·.user_id) ∨ u ∈ B.map (·.user_id)) :
    (rowsForKey A B u).countP (fun m => m.user_id == u) = 1 := by
  rw [rowsForKey_eq_find A B hA hB u]
  have hne : ¬((A.find? fun r => r.user_id == u) = none
      ∧ (B.find? fun r => r.user_id == u) = none) := by
    rintro ⟨hfa, hfb⟩
    rw [List.find?_eq_none] at hfa hfb
    rcases hu with hu | hu <;> rw [List.mem_map] at hu <;> obtain ⟨r, hr, hru⟩ := hu
    · exact hfa r hr (by simp [hru])
    · exact hfb r hr (by simp [hru])
  rw [if_neg hne]
  simp [mergedOfOpt]

/-- A key absent from a key list contributes nothing to its flattened rows. -/
theorem countP_flatten_keys_zero (A B : List SnapRow) (u : String) :
    ∀ ks : List String, (∀ k ∈ ks, k ≠ u) →
      ((ks.map (rowsForKey A B)).flatten).countP (fun m => m.user_id == u) = 0 := by
  intro ks
  induction ks with
  | nil => intro _; rfl
  | cons k ks ih =>
    intro h
    rw [List.map_cons, List.flatten_cons, List.countP_append,
      countP_rowsForKey_ne A B (h k (by simp)),
      ih (fun k' hk' => h k' (by simp [hk']))]

/-- Multiplicity of a key of the union over a nodup key list containing it. -/
theorem countP_flatten_keys_one (A B : List SnapRow)
    (hA : (A.map (·.user_id)).Nodup) (hB : (B.map (·.user_id)).Nodup)
    (u : String) (hu : u ∈ A.map (·.user_id) ∨ u ∈ B.map (·.user_id)) :
    ∀ ks : List String, ks.Nodup → u ∈ ks →
      ((ks.map (rowsForKey A B)).flatten).countP (fun m => m.user_id == u) = 1 := by
  intro ks
  induction ks with
  | nil => intro _ hmem; cases hmem
  | cons k ks ih =>
    intro hnd hmem
    rw [List.nodup_cons] at hnd
    rw [List.map_cons, List.flatten_cons, List.countP_append]
    by_cases hk : k = u
    · subst hk
      rw [countP_rowsForKey_self A B hA hB k hu,
        countP_flatten_keys_zero A B k ks (fun k' hk' hek => hnd.1 (hek ▸ hk'))]
    · rw [countP_rowsForKey_ne A B hk]
      rcases List.mem_cons.mp hmem with h | h
      · exact absurd h.symm hk
      · rw [ih hnd.2 h]

/-- Each id of the union appears exactly once among the merged rows when ids
are unique on both sides. -/
theorem countP_mergeOuter (A B : List SnapRow)
    (hA : (A.map (·.user_id)).Nodup) (hB : (B.map (·.user_id)).Nodup)
    {u : String} (hu : u ∈ A.map (·.user_id) ∨ u ∈ B.map (·.user_id)) :
    (mergeOuter A B).countP (fun m => m.user_id == u) = 1 :=
  countP_flatten_keys_one A B hA hB u hu (mergeKeys A B)
    (nodup_mergeKeys A B) (mem_mergeKeys.mpr hu)

/-! ## Claims -/

/-- C8: for two snapshot tables in which member ids are unique within each
table, every id appearing in either table appears exactly once in the outer
join, and a member present in only one table has null values in all columns
sourced exclusively from the other table. -/
theorem C8_outer_join_complete (A B : List SnapRow)
    (hA : (A.map (·.user_id)).Nodup) (hB : (B.map (·.user_id)).Nodup)
    (u : String) (hu : u ∈ A.map (·.user_id) ∨ u ∈ B.map (·.user_id)) :
    (mergeOuter A B).countP (fun m => m.user_id == u) = 1
    ∧ (u ∉ B.map (·.user_id) → ∀ m ∈ mergeOuter A B, m.user_id = u →
        m.xantaken_b = none ∧ m.name_b = none
          ∧ m.position_b = none ∧ m.level_b = none)
    ∧ (u ∉ A.map (·.user_id) → ∀ m ∈ mergeOuter A B, m.user_id = u →
        m.xantaken_a = none ∧ m.name_a = none
          ∧ m.position_a = none ∧ m.level_a = none) := by
  refine ⟨countP_mergeOuter A B hA hB hu, ?_, ?_⟩
  · intro hnb m hm hmu
    have hspec := mem_mergeOuter hA hB hm
    have hfb : (B.find? fun r => r.user_id == m.user_id) = none := by
      rw [List.find?_eq_none]
      intro r hr hru
      exact hnb (by
        rw [List.mem_map]
        exact ⟨r, hr, by rw [← hmu]; simpa using hru⟩)
    rw [hfb] at hspec
    refine ⟨?_, ?_, ?_, ?_⟩ <;> rw [hspec] <;> rfl
  · intro hna m hm hmu
    have hspec := mem_mergeOuter hA hB hm
    have hfa : (A.find? fun r => r.user_id == m.user_id) = none := by
      rw [List.find?_eq_none]
      intro r hr hru
      exact hna (by
        rw [List.mem_map]
        exact ⟨r, hr, by rw [← hmu]; simpa using hru⟩)
    rw [hfa] at hspec
    refine ⟨?_, ?_, ?_, ?_⟩ <;> rw [hspec] <;> rfl

/-- A one-member normalized snapshot used to witness the join claims. -/
def exSnapRow1 : SnapRow :=
  { user_id := "1", xantaken := some 5, name := none, position := none, level := none }

/-- A second one-member normalized snapshot with a different id. -/
def exSnapRow2 : SnapRow :=
  { user_id := "2", xantaken := some 7, name := none, position := none, level := none }

/-- Witness for C8: member 1 is present only in the first table, and appears
exactly once in the join. -/
theorem C8_outer_join_complete_witness :
    (mergeOuter [exSnapRow1] [exSnapRow2]).countP (fun m => m.user_id == "1") = 1 :=
  (C8_outer_join_complete [exSnapRow1] [exSnapRow2] (by decide) (by decide)
    "1" (Or.inl (by decide))).1

/-- C3: the status column follows the exact first-match precedence of
`_status`: both values missing, then only the first missing, then only the
second missing, then rate below 1, then rate at least 2, then the default;
and a missing rate (days null or zero) compares false against both
thresholds and falls through to the default "Pass" without raising. -/
theorem C3_status_precedence (a b avg : Option ℚ) :
    (a = none → b = none → statusOf a b avg = "Never Taken Xan!!!")
    ∧ (∀ y, a = none → b = some y → statusOf a b avg = "New Recruit")
    ∧ (∀ x, a = some x → b = none →
        statusOf a b avg = "Not in Faction and Time of Second Snapshot")
    ∧ (∀ x y v, a = some x → b = some y → avg = some v → v < 1 →
        statusOf a b avg = "Fail")
    ∧ (∀ x y v, a = some x → b = some y → avg = some v → ¬v < 1 → 2 ≤ v →
        statusOf a b avg = "Exceeds")
    ∧ (∀ x y v, a = some x → b = some y → avg = some v → 1 ≤ v → v < 2 →
        statusOf a b avg = "Pass")
    ∧ (∀ x y, a = some x → b = some y → avg = none →
        statusOf a b avg = "Pass") := by
  refine ⟨?_, ?_, ?_, ?_, ?_, ?_, ?_⟩
  · rintro rfl rfl; rfl
  · rintro y rfl rfl; rfl
  · rintro x rfl rfl; rfl
  · rintro x y v rfl rfl rfl h
    simp [statusOf, nanLt, h]
  · rintro x y v rfl rfl rfl h h2
    simp [statusOf, nanLt, nanGe, h, h2]
  · rintro x y v rfl rfl rfl h1 h2
    simp [statusOf, nanLt, nanGe, not_lt.mpr h1, not_le.mpr h2]
  · rintro x y rfl rfl rfl
    simp [statusOf, nanLt, nanGe]

/-- Witness for C3 at concrete inputs: each status label is reached. -/
theorem C3_status_precedence_witness :
    statusOf none (some 5) none = "New Recruit"
    ∧ statusOf (some 5) none none = "Not in Faction and Time of Second Snapshot"
    ∧ statusOf (some 3) (some 4) none = "Pass"
    ∧ statusOf (some 3) (some 4) (some (1 / 3)) = "Fail"
    ∧ statusOf (some 3) (some 15) (some 4) = "Exceeds"
    ∧ statusOf none none none = "Never Taken Xan!!!" :=
  ⟨(C3_status_precedence none (some 5) none).2.1 5 rfl rfl,
   (C3_status_precedence (some 5) none none).2.2.1 5 rfl rfl,
   (C3_status_precedence (some 3) (some 4) none).2.2.2.2.2.2 3 4 rfl rfl rfl,
   (C3_status_precedence (some 3) (some 4) (some (1 / 3))).2.2.2.1 3 4 (1 / 3)
     rfl rfl rfl (by norm_num),
   (C3_status_precedence (some 3) (some 15) (some 4)).2.2.2.2.1 3 15 4
     rfl rfl rfl (by norm_num) (by norm_num),
   (C3_status_precedence none none none).1 rfl rfl⟩

/-- C9: the claim asserts the sent Authorization credential is a function of
the caller-supplied `api_key`; in the source the header value is a hardcoded
literal, so the headers are identical for every pair of keys. -/
theorem C9_auth_header_constant (k1 k2 : String) :
    tornGetHeaders k1 = tornGetHeaders k2 := rfl

/-- C10: when neither input supplies a `position` column (but both carry the
mandatory columns), `build_report` raises instead of producing a report,
because the final sort unconditionally references the `position` key. -/
theorem C10_no_position_raises (dfa dfb : RawDF) (pa pb : String)
    (hu : dfa.hasUserId = true) (hx : dfa.hasXantaken = true)
    (hu' : dfb.hasUserId = true) (hx' : dfb.hasXantaken = true)
    (hpa : dfa.hasPosition = false) (hpb : dfb.hasPosition = false) :
    buildReport dfa pa dfb pb = .error "KeyError: position" := by
  unfold buildReport loadSnapshot missingCols
  simp [hu, hx, hu', hx', hpa, hpb]

/-- Witness for C10: two concrete position-less snapshot files make
`build_report` fail. -/
theorem C10_no_position_raises_witness :
    buildReport exNoPos "a.csv" exNoPos "b.csv" = .error "KeyError: position" :=
  C10_no_position_raises exNoPos exNoPos "a.csv" "b.csv" rfl rfl rfl rfl rfl rfl

/-- C1 counterexample: with snapshots dated 2024-01-01 and 2024-01-04
(`days_between = 3 > 0`), the member present only in the first snapshot gets
non-null `xantaken_min`/`xantaken_max` (both the present value 5, because the
pandas row-wise min/max skip missing values instead of propagating them) and
a numeric `avg_xantaken_per_day` of 0 rather than null. -/
theorem C1_counterexample :
    (buildReport exA "a_2024-01-01.csv" exB "b_2024-01-04.csv").toOption.isSome = true
    ∧ (okOut (buildReport exA "a_2024-01-01.csv" exB "b_2024-01-04.csv")).days_between
      = some 3
    ∧ (okOut (buildReport exA "a_2024-01-01.csv" exB "b_2024-01-04.csv")).report.map
        (fun r => (r.xantaken_a, r.xantaken_b,
          xantakenMinCol r.xantaken_a r.xantaken_b,
          xantakenMaxCol r.xantaken_a r.xantaken_b,
          r.avg_xantaken_per_day))
      = [(some 5, none, some 5, some 5, some 0)] :=
  ⟨by decide, by decide, by decide⟩

/-- C1 (amended): `xantaken_min`/`xantaken_max` are null-skipping, not
null-propagating: they are null exactly when BOTH of `xantaken_a` and
`xantaken_b` are null; consequently, when `days_between` is a positive (or
any non-zero) number, a member present in only one of the two snapshots has
`avg_xantaken_per_day = 0`, a numeric value, not null. -/
theorem C1_minmax_null_skipping (days : Option Int) (m : MergedRow) :
    (xantakenMinCol m.xantaken_a m.xantaken_b = none ↔
      (m.xantaken_a = none ∧ m.xantaken_b = none))
    ∧ (xantakenMaxCol m.xantaken_a m.xantaken_b = none ↔
      (m.xantaken_a = none ∧ m.xantaken_b = none))
    ∧ (∀ d : Int, days = some d → d ≠ 0 →
        ((m.xantaken_a ≠ none ∧ m.xantaken_b = none)
          ∨ (m.xantaken_a = none ∧ m.xantaken_b ≠ none)) →
        (toReportRow days m).avg_xantaken_per_day = some 0) := by
  refine ⟨?_, ?_, ?_⟩
  · cases m.xantaken_a <;> cases m.xantaken_b <;> simp [xantakenMinCol]
  · cases m.xantaken_a <;> cases m.xantaken_b <;> simp [xantakenMaxCol]
  · rintro d rfl hd h
    rcases h with ⟨ha, hb⟩ | ⟨ha, hb⟩
    · obtain ⟨x, hx⟩ := Option.ne_none_iff_exists'.mp ha
      simp [toReportRow, hx, hb, xantakenMinCol, xantakenMaxCol, avgCol, hd]
    · obtain ⟨y, hy⟩ := Option.ne_none_iff_exists'.mp hb
      simp [toReportRow, hy, ha, xantakenMinCol, xantakenMaxCol, avgCol, hd]

/-- Witness for the amended C1: a one-sided member over a 3-day gap gets the
numeric rate 0. -/
theorem C1_minmax_null_skipping_witness :
    (toReportRow (some 3) (mergedOfOpt "1" (some exSnapRow1) none)).avg_xantaken_per_day
      = some 0 :=
  (C1_minmax_null_skipping (some 3) (mergedOfOpt "1" (some exSnapRow1) none)).2.2 3 rfl
    (by decide) (Or.inl (by decide))

/-- C2 counterexample: with the chronologically later file passed first
(`exC` dated 2024-01-04, `exD` dated 2024-01-01), `xantaken_a` holds the
later snapshot's value 10, not the chronologically earlier value 3, and
swapping the argument order changes the report rows (the a/b columns and the
diff sign flip). -/
theorem C2_counterexample :
    ((buildReport exC "c.csv" exD "d.csv").toOption.map fun o =>
        o.report.map fun r => (r.xantaken_a, r.xantaken_b, r.diff_xantaken))
      = some [(some 10, some 3, some (-7))]
    ∧ ((buildReport exD "d.csv" exC "c.csv").toOption.map fun o =>
        o.report.map fun r => (r.xantaken_a, r.xantaken_b, r.diff_xantaken))
      = some [(some 3, some 10, some 7)]
    ∧ dayLt (parseDateFromDfOrFilename exD "d.csv")
        (parseDateFromDfOrFilename exC "c.csv") = true := by
  refine ⟨by decide, by decide, by decide⟩

/-- C2 (amended): when both reference dates resolve, swapping the two file
arguments yields the same `start_date`, `end_date` and `days_between`; but
the value columns follow argument order, not chronological order:
`xantaken_a` always holds the first-argument table's value for the row's
member and `xantaken_b` the second-argument table's value. -/
theorem C2_swap_argument_order (dfa dfb : RawDF) (pa pb : String)
    (out out' : BuildOut) (sa sb : Snapshot)
    (ha : loadSnapshot dfa pa = .ok sa) (hb : loadSnapshot dfb pb = .ok sb)
    (h : buildReport dfa pa dfb pb = .ok out)
    (h' : buildReport dfb pb dfa pa = .ok out')
    (hda : (parseDateFromDfOrFilename dfa pa).isSome)
    (hdb : (parseDateFromDfOrFilename dfb pb).isSome)
    (hna : (sa.rows.map (·.user_id)).Nodup)
    (hnb : (sb.rows.map (·.user_id)).Nodup) :
    (out.start_date = out'.start_date ∧ out.end_date = out'.end_date
      ∧ out.days_between = out'.days_between)
    ∧ ∀ r ∈ out.report, r.xantaken_a = lookupXan sa r.user_id
        ∧ r.xantaken_b = lookupXan sb r.user_id := by
  obtain ⟨sa1, sb1, ha1, hb1, hp1, hrep, hs, he, hd⟩ := buildReport_ok h
  obtain ⟨sb2, sa2, hb2, ha2, hp2, hrep', hs', he', hd'⟩ := buildReport_ok h'
  have ea : sa1 = sa := by
    have := ha1.symm.trans ha
    injection this
  have eb : sb1 = sb := by
    have := hb1.symm.trans hb
    injection this
  subst ea eb
  constructor
  · rw [hs, he, hd, hs', he', hd', dateSummary_swap hda hdb]
    exact ⟨rfl, rfl, rfl⟩
  · intro r hr
    rw [hrep, sortReport, List.mem_insertionSort, preReport, List.mem_map] at hr
    obtain ⟨m, hm, rfl⟩ := hr
    have hspec := mem_mergeOuter hna hnb hm
    exact ⟨congrArg MergedRow.xantaken_a hspec, congrArg MergedRow.xantaken_b hspec⟩

/-- Witness for the amended C2 on the concrete two-file pair: the swapped
runs agree on the date summary, and the first run's value columns come from
the argument tables. -/
theorem C2_swap_argument_order_witness :
    ((okOut (buildReport exC "c.csv" exD "d.csv")).days_between
      = (okOut (buildReport exD "d.csv" exC "c.csv")).days_between)
    ∧ ∀ r ∈ (okOut (buildReport exC "c.csv" exD "d.csv")).report,
        r.xantaken_a = lookupXan (okSnap (loadSnapshot exC "c.csv")) r.user_id
        ∧ r.xantaken_b = lookupXan (okSnap (loadSnapshot exD "d.csv")) r.user_id :=
  ⟨(C2_swap_argument_order exC exD "c.csv" "d.csv"
      (okOut (buildReport exC "c.csv" exD "d.csv"))
      (okOut (buildReport exD "d.csv" exC "c.csv"))
      (okSnap (loadSnapshot exC "c.csv")) (okSnap (loadSnapshot exD "d.csv"))
      rfl rfl rfl rfl (by decide) (by decide) (by decide) (by decide)).1.2.2,
   (C2_swap_argument_order exC exD "c.csv" "d.csv"
      (okOut (buildReport exC "c.csv" exD "d.csv"))
      (okOut (buildReport exD "d.csv" exC "c.csv"))
      (okSnap (loadSnapshot exC "c.csv")) (okSnap (loadSnapshot exD "d.csv"))
      rfl rfl rfl rfl (by decide) (by decide) (by decide) (by decide)).2⟩

/-- C4: if both reference dates resolve, `start_date` is the earlier and
`end_date` the later with `days_between` their absolute difference in days;
if either fails to resolve, the two values pass through in argument order
and `days_between` is null. -/
theorem C4_date_summary (dfa dfb : RawDF) (pa pb : String) (out : BuildOut)
    (h : buildReport dfa pa dfb pb = .ok out) :
    (∀ x y, parseDateFromDfOrFilename dfa pa = some x →
        parseDateFromDfOrFilename dfb pb = some y →
        out.start_date = some (min x y) ∧ out.end_date = some (max x y)
          ∧ out.days_between = some |x - y|)
    ∧ ((parseDateFromDfOrFilename dfa pa = none
          ∨ parseDateFromDfOrFilename dfb pb = none) →
        out.start_date = parseDateFromDfOrFilename dfa pa
          ∧ out.end_date = parseDateFromDfOrFilename dfb pb
          ∧ out.days_between = none) := by
  obtain ⟨sa, sb, ha, hb, hp, hrep, hs, he, hd⟩ := buildReport_ok h
  constructor
  · intro x y hx hy
    rw [hs, he, hd, hx, hy, dateSummary_some, Int.abs_eq_natAbs]
    exact ⟨rfl, rfl, rfl⟩
  · intro hnone
    rw [hs, he, hd, dateSummary_none hnone]
    exact ⟨rfl, rfl, rfl⟩

/-- A witness of a substring: an explicit decomposition. -/
theorem containsStr_mk (hay p sub q : String) (h : hay = p ++ sub ++ q) :
    containsStr hay sub :=
  ⟨p, q, h⟩

/-- C6: loading a snapshot fails with an error iff a mandatory column
(`user_id`, `xantaken`) is absent; the error message names the offending file
and every missing column; and when both mandatory columns are present the
load succeeds, with every `xantaken` cell coerced through the
null-on-unparsable numeric conversion. -/
theorem C6_load_validation (df : RawDF) (path : String) :
    ((∃ m, loadSnapshot df path = .error m) ↔
      (df.hasUserId = false ∨ df.hasXantaken = false))
    ∧ (∀ m, loadSnapshot df path = .error m →
        containsStr m path ∧ ∀ c ∈ missingCols df, containsStr m c)
    ∧ (df.hasUserId = true → df.hasXantaken = true →
        ∃ s, loadSnapshot df path = .ok s
          ∧ s.rows.map (·.xantaken) = df.rows.map (fun r => toNumeric r.xantaken)) := by
  have hi1 : String.intercalate ", " ["user_id"] = "user_id" := rfl
  have hi2 : String.intercalate ", " ["xantaken"] = "xantaken" := rfl
  have hi3 : String.intercalate ", " ["user_id", "xantaken"] = "user_id, xantaken" := by
    decide
  have hsplit1 : ("user_id, xantaken" : String) = "user_id" ++ ", xantaken" := rfl
  have hsplit2 : ("user_id, xantaken" : String) = "user_id, " ++ "xantaken" := rfl
  cases hu : df.hasUserId <;> cases hx : df.hasXantaken
  · -- both mandatory columns missing
    have hload : loadSnapshot df path = .error
        (path ++ " is missing required column(s): " ++ "user_id, xantaken"
          ++ ". Found columns: " ++ String.intercalate ", " (colNames df)) := by
      simp [loadSnapshot, missingCols, hu, hx, hi3]
    refine ⟨⟨fun _ => Or.inl rfl, fun _ => ⟨_, hload⟩⟩, ?_, ?_⟩
    · intro m hm
      rw [hload] at hm
      injection hm with hm
      subst hm
      refine ⟨containsStr_mk _ "" path
        (" is missing required column(s): " ++ "user_id, xantaken"
          ++ ". Found columns: " ++ String.intercalate ", " (colNames df))
        (by simp only [String.empty_append, String.append_assoc]), ?_⟩
      intro c hc
      simp [missingCols, hu, hx] at hc
      rcases hc with rfl | rfl
      · exact containsStr_mk _ (path ++ " is missing required column(s): ")
          "user_id"
          (", xantaken" ++ ". Found columns: " ++ String.intercalate ", " (colNames df))
          (by simp only [String.append_assoc]; rw [hsplit1]
              simp only [String.append_assoc])
      · exact containsStr_mk _ (path ++ " is missing required column(s): " ++ "user_id, ")
          "xantaken"
          (". Found columns: " ++ String.intercalate ", " (colNames df))
          (by simp only [String.append_assoc]; rw [hsplit2]
              simp only [String.append_assoc])
    · intro h
      cases h
  · -- user_id missing
    have hload : loadSnapshot df path = .error
        (path ++ " is missing required column(s): " ++ "user_id"
          ++ ". Found columns: " ++ String.intercalate ", " (colNames df)) := by
      simp [loadSnapshot, missingCols, hu, hx, hi1]
    refine ⟨⟨fun _ => Or.inl rfl, fun _ => ⟨_, hload⟩⟩, ?_, ?_⟩
    · intro m hm
      rw [hload] at hm
      injection hm with hm
      subst hm
      refine ⟨containsStr_mk _ "" path
        (" is missing required column(s): " ++ "user_id"
          ++ ". Found columns: " ++ String.intercalate ", " (colNames df))
        (by simp only [String.empty_append, String.append_assoc]), ?_⟩
      intro c hc
      simp [missingCols, hu, hx] at hc
      subst hc
      exact containsStr_mk _ (path ++ " is missing required column(s): ")
        "user_id"
        (". Found columns: " ++ String.intercalate ", " (colNames df))
        (by simp only [String.append_assoc])
    · intro h
      cases h
  · -- xantaken missing
    have hload : loadSnapshot df path = .error
        (path ++ " is missing required column(s): " ++ "xantaken"
          ++ ". Found columns: " ++ String.intercalate ", " (colNames df)) := by
      simp [loadSnapshot, missingCols, hu, hx, hi2]
    refine ⟨⟨fun _ => Or.inr rfl, fun _ => ⟨_, hload⟩⟩, ?_, ?_⟩
    · intro m hm
      rw [hload] at hm
      injection hm with hm
      subst hm
      refine ⟨containsStr_mk _ "" path
        (" is missing required column(s): " ++ "xantaken"
          ++ ". Found columns: " ++ String.intercalate ", " (colNames df))
        (by simp only [String.empty_append, String.append_assoc]), ?_⟩
      intro c hc
      simp [missingCols, hu, hx] at hc
      subst hc
      exact containsStr_mk _ (path ++ " is missing required column(s): ")
        "xantaken"
        (". Found columns: " ++ String.intercalate ", " (colNames df))
        (by simp only [String.append_assoc])
    · intro _ h
      cases h
  · -- both present: the load succeeds
    have hload : loadSnapshot df path = .ok
        { hasName := df.hasName
          hasPosition := df.hasPosition
          hasLevel := df.hasLevel
          rows := df.rows.map fun r =>
            { user_id := userIdStr r.user_id
              xantaken := toNumeric r.xantaken
              name := if df.hasName then r.name else none
              position := if df.hasPosition then r.position else none
              level := if df.hasLevel then r.level else none } } := by
      simp [loadSnapshot, missingCols, hu, hx]
    refine ⟨⟨?_, ?_⟩, ?_, ?_⟩
    · rintro ⟨m, hm⟩
      rw [hload] at hm
      cases hm
    · rintro (h | h) <;> cases h
    · intro m hm
      rw [hload] at hm
      cases hm
    · intro _ _
      refine ⟨_, hload, ?_⟩
      simp [List.map_map]

/-- Witness for C6: a file missing `xantaken` errors with a message naming
the file and the column; a file with an unparsable stat loads with a null
stat. -/
theorem C6_load_validation_witness :
    (∃ m, loadSnapshot exNoXan "snap.csv" = .error m)
    ∧ (∃ s, loadSnapshot exBadStat "snap.csv" = .ok s
        ∧ s.rows.map (·.xantaken)
          = exBadStat.rows.map (fun r => toNumeric r.xantaken)) :=
  ⟨(C6_load_validation exNoXan "snap.csv").1.mpr (Or.inr rfl),
   (C6_load_validation exBadStat "snap.csv").2.2 rfl rfl⟩

/-- C7: the date resolver follows the documented fallback chain and never
raises: first usable `export_date` value if it parses; otherwise the
filename's first `YYYY-MM-DD` pattern (not the next row); otherwise null. -/
theorem C7_resolve_date_chain (df : RawDF) (name : String) :
    (∀ v d, df.hasExportDate = true →
        (df.rows.filterMap (·.export_date)).head? = some v → pdToDate v = some d →
        parseDateFromDfOrFilename df name = some d)
    ∧ (df.hasExportDate = false →
        parseDateFromDfOrFilename df name = filenameDate name)
    ∧ (df.hasExportDate = true → (df.rows.filterMap (·.export_date)).head? = none →
        parseDateFromDfOrFilename df name = filenameDate name)
    ∧ (∀ v, df.hasExportDate = true →
        (df.rows.filterMap (·.export_date)).head? = some v → pdToDate v = none →
        parseDateFromDfOrFilename df name = filenameDate name)
    ∧ (searchIsoPattern name.data = none → filenameDate name = none)
    ∧ (∀ s, searchIsoPattern name.data = some s →
        filenameDate name = parseIsoDate s) := by
  refine ⟨?_, ?_, ?_, ?_, ?_, ?_⟩
  · intro v d he hh hp
    simp [parseDateFromDfOrFilename, he, hh, hp]
  · intro he
    simp [parseDateFromDfOrFilename, he]
  · intro he hh
    simp [parseDateFromDfOrFilename, he, hh]
  · intro v he hh hp
    simp [parseDateFromDfOrFilename, he, hh, hp]
  · intro hs
    simp [filenameDate, hs]
  · intro s hs
    rw [filenameDate, hs]
    cases hp : parseIsoDate s <;> simp [hp]

/-- A snapshot file whose one `export_date` cell is unparsable. -/
def exBadDate : RawDF :=
  { exA with rows := [{ exRowA with export_date := some "notadate" }] }

/-- Witness for C7: an unparsable first date value falls through to the
filename, and a filename without a date pattern yields null. -/
theorem C7_resolve_date_chain_witness :
    parseDateFromDfOrFilename exBadDate "x_2024-02-30.csv"
      = filenameDate "x_2024-02-30.csv"
    ∧ filenameDate "plain.csv" = none :=
  ⟨(C7_resolve_date_chain exBadDate "x_2024-02-30.csv").2.2.2.1 "notadate"
      rfl rfl rfl,
   (C7_resolve_date_chain exBadDate "plain.csv").2.2.2.2.1 rfl⟩

/-- What one comparison under the report order means for the three sort
keys: null positions sort after non-null ones; within equal position the
diff is descending with nulls last; remaining ties are by ascending id. -/
theorem reportOrder_spec {r s : ReportRow} (h : reportOrder r s) :
    (r.position = none → s.position = none)
    ∧ (r.position = s.position → r.diff_xantaken = none → s.diff_xantaken = none)
    ∧ (r.position = s.position → ∀ x y, r.diff_xantaken = some x →
        s.diff_xantaken = some y → y ≤ x)
    ∧ (r.position = s.position → r.diff_xantaken = s.diff_xantaken →
        r.user_id ≤ s.user_id) := by
  unfold reportOrder reportKey at h
  rw [Prod.Lex.le_iff] at h
  refine ⟨?_, ?_, ?_, ?_⟩
  · intro hrn
    cases hsp : s.position with
    | none => rfl
    | some y =>
      exfalso
      rw [hrn, hsp] at h
      simp only [Option.isNone_none, Option.isNone_some, Option.getD_none,
        Option.getD_some] at h
      rcases h with h | ⟨h1, _⟩
      · rw [Prod.Lex.lt_iff] at h
        rcases h with h | ⟨h1, _⟩
        · exact (show ¬(true < false) from by decide) h
        · simp at h1
      · rw [toLex_inj, Prod.mk.injEq] at h1
        simp at h1
  · intro hpos hrd
    have hpk : (toLex (r.position.isNone, r.position.getD "") : Lex (Bool × String))
        = toLex (s.position.isNone, s.position.getD "") := by rw [hpos]
    rcases h with h | ⟨_, h2⟩
    · rw [hpk] at h
      exact absurd h (lt_irrefl _)
    · rw [Prod.Lex.le_iff] at h2
      cases hsd : s.diff_xantaken with
      | none => rfl
      | some y =>
        exfalso
        rw [hrd, hsd] at h2
        simp only [Option.isNone_none, Option.isNone_some, Option.getD_none,
          Option.getD_some] at h2
        rcases h2 with h2 | ⟨h3, _⟩
        · rw [Prod.Lex.lt_iff] at h2
          rcases h2 with h2 | ⟨h3, _⟩
          · exact (show ¬(true < false) from by decide) h2
          · simp at h3
        · rw [toLex_inj, Prod.mk.injEq] at h3
          simp at h3
  · intro hpos x y hrd hsd
    have hpk : (toLex (r.position.isNone, r.position.getD "") : Lex (Bool × String))
        = toLex (s.position.isNone, s.position.getD "") := by rw [hpos]
    rcases h with h | ⟨_, h2⟩
    · rw [hpk] at h
      exact absurd h (lt_irrefl _)
    · rw [Prod.Lex.le_iff] at h2
      rw [hrd, hsd] at h2
      simp only [Option.isNone_some, Option.getD_some] at h2
      rcases h2 with h2 | ⟨h3, _⟩
      · rw [Prod.Lex.lt_iff] at h2
        rcases h2 with h2 | ⟨_, h4⟩
        · exact absurd h2 (lt_irrefl _)
        · exact le_of_lt (by simpa using h4)
      · rw [toLex_inj, Prod.mk.injEq] at h3
        have : x = y := by simpa using h3.2
        exact le_of_eq this.symm
  · intro hpos hdiff
    have hpk : (toLex (r.position.isNone, r.position.getD "") : Lex (Bool × String))
        = toLex (s.position.isNone, s.position.getD "") := by rw [hpos]
    have hdk : (toLex (r.diff_xantaken.isNone,
          OrderDual.toDual (r.diff_xantaken.getD 0)) : Lex (Bool × ℚᵒᵈ))
        = toLex (s.diff_xantaken.isNone,
          OrderDual.toDual (s.diff_xantaken.getD 0)) := by rw [hdiff]
    rcases h with h | ⟨_, h2⟩
    · rw [hpk] at h
      exact absurd h (lt_irrefl _)
    · rw [Prod.Lex.le_iff] at h2
      rcases h2 with h2 | ⟨_, h3⟩
      · rw [hdk] at h2
        rw [Prod.Lex.lt_iff] at h2
        rcases h2 with h2 | ⟨_, h4⟩
        · exact absurd h2 (lt_irrefl _)
        · exact absurd h4 (lt_irrefl _)
      · exact h3

/-- C5: the report produced by a successful `build_report` run is sorted by
(position ascending, diff descending, user_id ascending) with nulls last per
key independently, is a permutation of the derived (pre-sort) rows, and the
sort is stable: rows with fully tied keys keep their pre-sort relative
order. -/
theorem C5_report_sorted (dfa dfb : RawDF) (pa pb : String)
    (out : BuildOut) (sa sb : Snapshot)
    (ha : loadSnapshot dfa pa = .ok sa) (hb : loadSnapshot dfb pb = .ok sb)
    (h : buildReport dfa pa dfb pb = .ok out) :
    out.report.Sorted reportOrder
    ∧ out.report.Perm (preReport sa sb
        (dateSummary (parseDateFromDfOrFilename dfa pa)
          (parseDateFromDfOrFilename dfb pb)).2.2)
    ∧ (∀ c : List ReportRow,
        c.Pairwise (fun r s => reportKey r = reportKey s) →
        c.Sublist (preReport sa sb
          (dateSummary (parseDateFromDfOrFilename dfa pa)
            (parseDateFromDfOrFilename dfb pb)).2.2) →
        c.Sublist out.report)
    ∧ out.report.Sorted (fun r s =>
        (r.position = none → s.position = none)
        ∧ (r.position = s.position → r.diff_xantaken = none → s.diff_xantaken = none)
        ∧ (r.position = s.position → ∀ x y, r.diff_xantaken = some x →
            s.diff_xantaken = some y → y ≤ x)
        ∧ (r.position = s.position → r.diff_xantaken = s.diff_xantaken →
            r.user_id ≤ s.user_id)) := by
  obtain ⟨sa1, sb1, ha1, hb1, hp1, hrep, _, _, _⟩ := buildReport_ok h
  have ea : sa1 = sa := by
    have := ha1.symm.trans ha
    injection this
  have eb : sb1 = sb := by
    have := hb1.symm.trans hb
    injection this
  subst ea eb
  rw [hrep, sortReport]
  refine ⟨List.sorted_insertionSort reportOrder _, List.perm_insertionSort reportOrder _,
    ?_, ?_⟩
  · intro c hpair hsub
    exact List.sublist_insertionSort (hpair.imp fun hk => le_of_eq hk) hsub
  · exact (List.sorted_insertionSort reportOrder _).imp fun hrs => reportOrder_spec hrs

/-- Witness for C5 on a concrete run. -/
theorem C5_report_sorted_witness :
    (okOut (buildReport exC "c.csv" exD "d.csv")).report.Sorted reportOrder :=
  (C5_report_sorted exC exD "c.csv" "d.csv"
    (okOut (buildReport exC "c.csv" exD "d.csv"))
    (okSnap (loadSnapshot exC "c.csv")) (okSnap (loadSnapshot exD "d.csv"))
    rfl rfl rfl).1

/-- Witness for C4: a resolved pair of dates three days apart, and a pair
with an unresolvable second date. -/
theorem C4_date_summary_witness :
    ((okOut (buildReport exA "a.csv" exB "b_2024-01-04.csv")).days_between
      = some |(parseDateFromDfOrFilename exA "a.csv").getD 0
          - (parseDateFromDfOrFilename exB "b_2024-01-04.csv").getD 0|)
    ∧ (okOut (buildReport exA "a.csv" exB "b.csv")).days_between = none :=
  ⟨((C4_date_summary exA exB "a.csv" "b_2024-01-04.csv"
      (okOut (buildReport exA "a.csv" exB "b_2024-01-04.csv")) rfl).1
      ((parseDateFromDfOrFilename exA "a.csv").getD 0)
      ((parseDateFromDfOrFilename exB "b_2024-01-04.csv").getD 0) rfl rfl).2.2,
   ((C4_date_summary exA exB "a.csv" "b.csv"
      (okOut (buildReport exA "a.csv" exB "b.csv")) rfl).2 (Or.inr rfl)).2.2⟩

end TornScripts
